import Mathlib

/-!
Shallow embedding of `src/strands_utcp/utcp_tool_adapter.py` from the
`strands-utcp` repository, together with theorems settling the claims about
its behaviour.

Modelling conventions:
* Python strings are modelled as `String`, except in the tool-name
  sanitization function where `List Char` is used so that character-level
  reasoning is direct.
* Python dictionaries appearing in configuration entries, tool arguments and
  tool results are modelled as association lists `List (String × PyValue)`.
* Python exceptions are modelled with `Except`: a raising call returns
  `.error m` where `m` is the exception's message (`str(e)`).
* The external UTCP client (`utcp.utcp_client.UtcpClient`) is a collaborator
  of this repository, not part of it; it is modelled as a record of the two
  behaviours the adapter consumes (`search_tools`, `call_tool`).
* `async`/`await` plays no role in the verified properties; each asynchronous
  call is modelled by the corresponding pure function application.
-/

/-- Python values as they occur in the adapter's configuration entries, tool
arguments and tool-call results.  Only the shapes the adapter inspects are
modelled: strings, dicts, booleans, `None` and ints. -/
inductive PyValue where
  | str (s : String)
  | dict (entries : List (String × PyValue))
  | bool (b : Bool)
  | none
  | int (n : Int)

/-- Character filter from lines 74-79 of `format_tool_name_for_bedrock`:
keep alphanumerics, underscore and hyphen, replace every other character by
an underscore.  Python's `str.isalnum` is modelled by `Char.isAlphanum`,
which agrees with it on ASCII characters. -/
def keepValidChar (c : Char) : Char :=
  if c.isAlphanum || c == '_' || c == '-' then c else '_'

/-- Line 71 of `format_tool_name_for_bedrock`: `tool_name.replace(".", "_")`.
This is also the transformation that claim C2 asserts to be the whole visible
effect of sanitization. -/
def dotReplacement (tool_name : List Char) : List Char :=
  tool_name.map fun c => if c = '.' then '_' else c

/-- Lines 70-81 of `format_tool_name_for_bedrock`: dot replacement followed by
the invalid-character replacement. -/
def sanitizeName (tool_name : List Char) : List Char :=
  (dotReplacement tool_name).map keepValidChar

/-- Model of `format_tool_name_for_bedrock` (utcp_tool_adapter.py, lines
63-89).  The random token `str(uuid.uuid4())` drawn inside the function is
passed in as the extra argument `uuid4_str`; the function computes
`short_uuid = uuid4_str.replace('-', '')[:8]` from it exactly as the source
does, and uses it only in the truncation branch. -/
def format_tool_name_for_bedrock (uuid4_str : List Char) (tool_name : List Char) : List Char :=
  let bedrock_name := sanitizeName tool_name
  if bedrock_name.length > 64 then
    bedrock_name.take 55 ++ ['_'] ++ (uuid4_str.filter fun c => c != '-').take 8
  else
    bedrock_name

/-- Duck-typed view of a UTCP `JsonSchema` property object as inspected by
`UtcpAgentTool._convert_schema_to_dict` (lines 115-133).  For the `type`
attribute the two Python possibilities "attribute missing" (`hasattr` is
false) and "attribute present with value `None`" lead to different code
paths, so it is modelled as `Option (Option String)`: `none` means the
attribute is missing, `some none` means it is `None`.  For `description`,
`enum` and `format` the code only tests
`hasattr(obj, f) and obj.f` (truthiness), under which "missing" and `None`
are indistinguishable, so a single `Option` suffices; the empty string and
the empty list are the remaining falsy values and are modelled explicitly. -/
structure JsonSchemaObj where
  type_attr : Option (Option String)
  description : Option String
  enum : Option (List String)
  format : Option String

/-- The plain dictionary produced by `_convert_schema_to_dict`: a `type` key
that is always present, and three keys that are only present when copied. -/
structure SchemaDict where
  type : String
  description : Option String
  enum : Option (List String)
  format : Option String
deriving DecidableEq

/-- Model of `UtcpAgentTool._convert_schema_to_dict` (lines 115-133): map the
types `"file"` and `None` to `"string"` via `type_mapping`, copy
`description`, `enum` and `format` only when present and truthy, and fall
back to `{"type": "string"}` when the object has no `type` attribute. -/
def UtcpAgentTool._convert_schema_to_dict (schema_obj : JsonSchemaObj) : SchemaDict :=
  match schema_obj.type_attr with
  | some t =>
    let schema_type := match t with
      | none => "string"
      | some "file" => "string"
      | some other => other
    { type := schema_type
      description := match schema_obj.description with
        | some s => if s ≠ "" then some s else none
        | none => none
      enum := match schema_obj.enum with
        | some l => if l ≠ [] then some l else none
        | none => none
      format := match schema_obj.format with
        | some s => if s ≠ "" then some s else none
        | none => none }
  | none => { type := "string", description := none, enum := none, format := none }

/-- Lowercase hexadecimal digit, as produced by Python's `%04x` formatting
inside `json.dumps` escape sequences. -/
def hexDigitChar (n : Nat) : Char :=
  if n < 10 then Char.ofNat (48 + n) else Char.ofNat (87 + n)

/-- Four lowercase hexadecimal digits. -/
def hex4 (n : Nat) : String :=
  String.mk [hexDigitChar (n / 4096 % 16), hexDigitChar (n / 256 % 16),
    hexDigitChar (n / 16 % 16), hexDigitChar (n % 16)]

/-- Escape of a single character inside a JSON string, following Python's
`json.dumps` with its default `ensure_ascii=True`: the characters from
space to tilde are kept except for the quote and the backslash, the usual
shorthand escapes are used, and everything else becomes `\uXXXX` (with a
surrogate pair beyond the basic multilingual plane). -/
def jsonEscapeChar (c : Char) : String :=
  if c = '"' then "\\\""
  else if c = '\\' then "\\\\"
  else if c = '\n' then "\\n"
  else if c = '\r' then "\\r"
  else if c = '\t' then "\\t"
  else if c.toNat = 8 then "\\b"
  else if c.toNat = 12 then "\\f"
  else if 32 ≤ c.toNat ∧ c.toNat ≤ 126 then String.mk [c]
  else if c.toNat < 65536 then "\\u" ++ hex4 c.toNat
  else
    "\\u" ++ hex4 (55296 + (c.toNat - 65536) / 1024) ++
      "\\u" ++ hex4 (56320 + (c.toNat - 65536) % 1024)

/-- JSON string literal as produced by `json.dumps`. -/
def jsonQuoteString (s : String) : String :=
  "\"" ++ String.join (s.toList.map jsonEscapeChar) ++ "\""

/-- Indentation produced by `json.dumps(..., indent=2)` at nesting depth
`depth`. -/
def indentSpaces (depth : Nat) : String :=
  String.mk (List.replicate (2 * depth) ' ')

mutual

/-- Model of Python's `json.dumps(value, indent=2)` on the modelled value
shapes, at nesting depth `depth` (the call in `UtcpAgentTool.stream` uses
depth 0). -/
def json_dumps (depth : Nat) : PyValue → String
  | .str s => jsonQuoteString s
  | .dict [] => "\x7b\x7d"
  | .dict (e :: es) =>
    "\x7b\n" ++ json_dumps_entries (depth + 1) (e :: es) ++ "\n" ++
      indentSpaces depth ++ "\x7d"
  | .bool b => if b then "true" else "false"
  | .none => "null"
  | .int n => toString n

/-- The comma-and-newline separated key/value lines of a JSON object with
`indent=2`. -/
def json_dumps_entries (depth : Nat) : List (String × PyValue) → String
  | [] => ""
  | [(k, v)] => indentSpaces depth ++ jsonQuoteString k ++ ": " ++ json_dumps depth v
  | (k, v) :: e :: es =>
    indentSpaces depth ++ jsonQuoteString k ++ ": " ++ json_dumps depth v ++ ",\n" ++
      json_dumps_entries depth (e :: es)

end

/-- External UTCP tool descriptor (`utcp.data.tool.Tool`).  Only the `name`
field is consumed by the verified code paths. -/
structure UTCPTool where
  name : String
deriving DecidableEq

/-- Model of `UtcpAgentTool` (lines 97-103): a wrapper holding the external
tool descriptor.  The back-reference to the owning adapter is not a field
here; the adapter state is passed explicitly to the methods that consume
it. -/
structure UtcpAgentTool where
  utcp_tool : UTCPTool
deriving DecidableEq

/-- Behavioural model of the external `UtcpClient` collaborator: the two
asynchronous operations the adapter consumes, as pure functions returning
either a result or the message of a raised exception. -/
structure UtcpClientStub where
  search_tools : String → Int → Except String (List UTCPTool)
  call_tool : String → List (String × PyValue) → Except String PyValue

/-- A raised `UtcpToolAdapterError`: its message (`str(e)`) and, when raised
with `raise ... from e`, the message of the chained cause. -/
structure AdapterError where
  msg : String
  cause : Option String
deriving DecidableEq

/-- Mutable state of a `UtcpToolAdapter` instance (lines 242-244): the
optional client handle `_utcp_client` and the tool cache `_tools_cache`.
The stored configuration `_config` is immutable after construction and is
passed to `start` as an explicit argument. -/
structure UtcpToolAdapter where
  utcp_client : Option UtcpClientStub
  tools_cache : List UtcpAgentTool
deriving Inhabited

/-- State established by `UtcpToolAdapter.__init__` (lines 234-245): no
client, empty cache. -/
def UtcpToolAdapter.construct : UtcpToolAdapter :=
  { utcp_client := none, tools_cache := [] }

/-- Model of `UtcpToolAdapter.stop` (lines 375-380): if a client is present,
clear the handle and the cache; otherwise do nothing. -/
def UtcpToolAdapter.stop (s : UtcpToolAdapter) : UtcpToolAdapter :=
  match s.utcp_client with
  | some _ => { utcp_client := none, tools_cache := [] }
  | none => s

/-- Model of `UtcpToolAdapter._load_tools` (lines 382-393): no-op without a
client; otherwise query `search_tools("", limit=1000)` and replace the cache
with the wrapped results, resetting it to empty if the query raises. -/
def UtcpToolAdapter._load_tools (s : UtcpToolAdapter) : UtcpToolAdapter :=
  match s.utcp_client with
  | none => s
  | some client =>
    match client.search_tools "" 1000 with
    | .ok utcp_tools => { s with tools_cache := utcp_tools.map UtcpAgentTool.mk }
    | .error _ => { s with tools_cache := [] }

/-- Model of `UtcpToolAdapter.call_tool` (lines 406-418): raise the
"not initialized" adapter error when no client is present; otherwise
delegate to the client's `call_tool`, returning its result unmodified and
wrapping any raised exception in an adapter error that chains the cause. -/
def UtcpToolAdapter.call_tool (s : UtcpToolAdapter) (tool_name : String)
    (arguments : List (String × PyValue)) : Except AdapterError PyValue :=
  match s.utcp_client with
  | none => .error { msg := "UTCP client not initialized", cause := none }
  | some client =>
    match client.call_tool tool_name arguments with
    | .ok result => .ok result
    | .error e => .error { msg := "Tool execution failed: " ++ e, cause := some e }

/-- The Python expression `max_results or 100` (line 426): `None` and `0`
are falsy and fall back to 100; any other integer passes through. -/
def py_or_100 (max_results : Option Int) : Int :=
  match max_results with
  | some n => if n ≠ 0 then n else 100
  | none => 100

/-- Model of `UtcpToolAdapter.search_tools` (lines 420-431): raise the
"not initialized" adapter error without a client; otherwise call the
client's search with `limit = max_results or 100`, wrap each result, and
return the empty list if the search raises. -/
def UtcpToolAdapter.search_tools (s : UtcpToolAdapter) (query : String)
    (max_results : Option Int) : Except AdapterError (List UtcpAgentTool) :=
  match s.utcp_client with
  | none => .error { msg := "UTCP client not initialized", cause := none }
  | some client =>
    let limit : Int := py_or_100 max_results
    match client.search_tools query limit with
    | .ok utcp_tools => .ok (utcp_tools.map UtcpAgentTool.mk)
    | .error _ => .ok []

/-- A `manual_call_templates` entry: a Python dict of configuration values. -/
def TemplateConfig := List (String × PyValue)

/-- Python `dict.get(key)`: the first binding of the key, if any. -/
def dictGet (d : TemplateConfig) (k : String) : Option PyValue :=
  (d.find? fun p => p.1 == k).map Prod.snd

/-- Python `dict.get(key, default)`. -/
def dictGetD (d : TemplateConfig) (k : String) (v : PyValue) : PyValue :=
  (dictGet d k).getD v

/-- Python `dict[key]`: the value, or a raised `KeyError` whose message is
modelled as `"KeyError: " ++ key`. -/
def dictReq (d : TemplateConfig) (k : String) : Except String PyValue :=
  match dictGet d k with
  | some v => .ok v
  | none => .error ("KeyError: " ++ k)

/-- Which of the optional call-template integrations imported at lines 19-44
are available (`CliCallTemplate` etc. are `None` when their import fails;
the three HTTP-family classes are unconditional imports). -/
structure Availability where
  cli : Bool
  gql : Bool
  mcp : Bool
  tcp : Bool
  udp : Bool
  text : Bool

/-- A constructed call-template object, holding exactly the keyword
arguments the adapter passes to the corresponding constructor. -/
inductive CallTemplate where
  | http (kwargs : List (String × PyValue))
  | sse (kwargs : List (String × PyValue))
  | streamable_http (kwargs : List (String × PyValue))
  | cli (name command : PyValue)
  | graphql (name url : PyValue)
  | mcp (name command : PyValue)
  | tcp (name host port : PyValue)
  | udp (name host port : PyValue)
  | text (name file_path : PyValue)

/-- Model of `UtcpToolAdapter._build_http_base_kwargs` (lines 255-270): the
required `name` and `url` lookups (a missing key raises `KeyError`), the
defaulted `http_method` and `content_type`, and the pass-through of the
optional fields that are present in the entry. -/
def UtcpToolAdapter._build_http_base_kwargs (template_config : TemplateConfig)
    (call_template_type : String) : Except String (List (String × PyValue)) := do
  let name ← dictReq template_config "name"
  let url ← dictReq template_config "url"
  let kwargs := [("name", name), ("call_template_type", PyValue.str call_template_type),
    ("url", url),
    ("http_method", dictGetD template_config "http_method" (.str "GET")),
    ("content_type", dictGetD template_config "content_type" (.str "application/json"))]
  let kwargs := ["auth", "headers", "body_field", "header_fields"].foldl
    (fun ks f => match dictGet template_config f with
      | some v => ks ++ [(f, v)]
      | none => ks) kwargs
  return kwargs

/-- The per-entry dispatch of `UtcpToolAdapter.start` (lines 277-357):
construct the call template for one configuration entry.  `.ok none` models
the `else` branch at line 356: an unsupported or unavailable
`call_template_type` is logged and skipped.  A value that is absent or not
a string also fails every `elif` comparison and reaches that branch. -/
def buildCallTemplate (avail : Availability) (template_config : TemplateConfig) :
    Except String (Option CallTemplate) :=
  match dictGet template_config "call_template_type" with
  | some (.str ctt) =>
    if ctt = "http" then do
      let kw ← UtcpToolAdapter._build_http_base_kwargs template_config "http"
      let kw := match dictGet template_config "auth_tools" with
        | some v => kw ++ [("auth_tools", v)]
        | none => kw
      return some (.http kw)
    else if ctt = "sse" then do
      let kw ← UtcpToolAdapter._build_http_base_kwargs template_config "sse"
      let kw := ["event_type", "reconnect", "retry_timeout"].foldl
        (fun ks f => match dictGet template_config f with
          | some v => ks ++ [(f, v)]
          | none => ks) kw
      return some (.sse kw)
    else if ctt = "streamable_http" then do
      let kw ← UtcpToolAdapter._build_http_base_kwargs template_config "streamable_http"
      let kw := ["chunk_size", "timeout"].foldl
        (fun ks f => match dictGet template_config f with
          | some v => ks ++ [(f, v)]
          | none => ks) kw
      return some (.streamable_http kw)
    else if ctt = "cli" ∧ avail.cli = true then do
      let name ← dictReq template_config "name"
      let command ← dictReq template_config "command"
      return some (.cli name command)
    else if ctt = "graphql" ∧ avail.gql = true then do
      let name ← dictReq template_config "name"
      let url ← dictReq template_config "url"
      return some (.graphql name url)
    else if ctt = "mcp" ∧ avail.mcp = true then do
      let name ← dictReq template_config "name"
      let command ← dictReq template_config "command"
      return some (.mcp name command)
    else if ctt = "tcp" ∧ avail.tcp = true then do
      let name ← dictReq template_config "name"
      let host ← dictReq template_config "host"
      let port ← dictReq template_config "port"
      return some (.tcp name host port)
    else if ctt = "udp" ∧ avail.udp = true then do
      let name ← dictReq template_config "name"
      let host ← dictReq template_config "host"
      let port ← dictReq template_config "port"
      return some (.udp name host port)
    else if ctt = "text" ∧ avail.text = true then do
      let name ← dictReq template_config "name"
      let file_path ← dictReq template_config "file_path"
      return some (.text name file_path)
    else .ok none
  | _ => .ok none

/-- The template-construction loop of `start` (lines 276-357): process the
entries in order, appending each constructed template and stopping at the
first raised exception. -/
def buildCallTemplates (avail : Availability) : List TemplateConfig → Except String (List CallTemplate)
  | [] => .ok []
  | tc :: rest =>
    match buildCallTemplate avail tc with
    | .error e => .error e
    | .ok t? =>
      match buildCallTemplates avail rest with
      | .error e => .error e
      | .ok ts => .ok (match t? with | some t => t :: ts | none => ts)

/-- The predicate "this entry is skipped with a warning" from the claim C8:
its `call_template_type` is absent, not a string, or a string that either
names no supported transport or names one whose optional integration is
unavailable. -/
def unsupportedEntry (avail : Availability) (template_config : TemplateConfig) : Prop :=
  match dictGet template_config "call_template_type" with
  | some (.str ctt) =>
    ctt ≠ "http" ∧ ctt ≠ "sse" ∧ ctt ≠ "streamable_http" ∧
    ¬(ctt = "cli" ∧ avail.cli = true) ∧ ¬(ctt = "graphql" ∧ avail.gql = true) ∧
    ¬(ctt = "mcp" ∧ avail.mcp = true) ∧ ¬(ctt = "tcp" ∧ avail.tcp = true) ∧
    ¬(ctt = "udp" ∧ avail.udp = true) ∧ ¬(ctt = "text" ∧ avail.text = true)
  | _ => True

/-- Model of `UtcpToolAdapter.start` (lines 272-373).  `config` is the
stored `self._config.get("manual_call_templates", [])` list and `create`
models the external asynchronous factory
`UtcpClient.create(config=UtcpClientConfig(manual_call_templates=...))`.
The result is the adapter state after the call together with either success
or the raised adapter error.  The client handle is only assigned after
`create` succeeds, and `_load_tools` catches its own exceptions, so every
raising path leaves the incoming state untouched and wraps the original
exception message. -/
def UtcpToolAdapter.start (avail : Availability)
    (create : List CallTemplate → Except String UtcpClientStub)
    (config : List TemplateConfig) (s : UtcpToolAdapter) :
    UtcpToolAdapter × Except AdapterError Unit :=
  match buildCallTemplates avail config with
  | .error e =>
    (s, .error { msg := "UTCP tool adapter initialization failed: " ++ e, cause := some e })
  | .ok call_templates =>
    match create call_templates with
    | .error e =>
      (s, .error { msg := "UTCP tool adapter initialization failed: " ++ e, cause := some e })
    | .ok client =>
      (UtcpToolAdapter._load_tools { s with utcp_client := some client }, .ok ())

/-- The `tool_use` dictionary handed to `UtcpAgentTool.stream`: the code
reads `tool_use.get("toolUseId", "unknown")` and `tool_use.get("input", {})`,
so only those two optional keys are modelled. -/
structure ToolUse where
  toolUseId : Option String
  input : Option (List (String × PyValue))

/-- The `ToolResultEvent` payload built by `UtcpAgentTool.stream`: the
`toolUseId`, the `content` list (each element models one `{"text": ...}`
block), and the `status`. -/
structure ToolResultEvent where
  toolUseId : String
  content : List String
  status : String
deriving DecidableEq

/-- The result-formatting block of `UtcpAgentTool.stream` (lines 200-206):
a string passes through, a dict is serialized with
`json.dumps(result, indent=2)`, and anything else is rendered with `str()`. -/
def format_result_content : PyValue → String
  | .str s => s
  | .dict d => json_dumps 0 (.dict d)
  | .bool b => if b then "True" else "False"
  | .none => "None"
  | .int n => toString n

/-- Model of `UtcpAgentTool.stream` (lines 191-224): run the adapter's
`call_tool` on the wrapped tool's external name and the `input` mapping,
and yield exactly one `ToolResultEvent` — a success envelope carrying the
formatted result, or an error envelope carrying `"Error: " + str(e)`. -/
def UtcpAgentTool.stream (s : UtcpToolAdapter) (tool : UTCPTool) (tool_use : ToolUse) :
    List ToolResultEvent :=
  match UtcpToolAdapter.call_tool s tool.name (tool_use.input.getD []) with
  | .ok result =>
    [{ toolUseId := tool_use.toolUseId.getD "unknown",
       content := [format_result_content result], status := "success" }]
  | .error e =>
    [{ toolUseId := tool_use.toolUseId.getD "unknown",
       content := ["Error: " ++ e.msg], status := "error" }]

/-- The invariant of claim C9: an adapter without a client has an empty tool
cache. -/
def cacheInvariant (s : UtcpToolAdapter) : Prop :=
  s.utcp_client = none → s.tools_cache = []

/-- A client factory that always fails, as in the specification's
"Connection failed" start scenario. -/
def connectionFailedCreate : List CallTemplate → Except String UtcpClientStub :=
  fun _ => .error "Connection failed"

/-- Availability with every optional integration missing. -/
def availNone : Availability :=
  { cli := false, gql := false, mcp := false, tcp := false, udp := false, text := false }

/-- A client whose `call_tool` returns the Python value `True`. -/
def boolResultClient : UtcpClientStub :=
  { search_tools := fun _ _ => .ok [], call_tool := fun _ _ => .ok (.bool true) }

/-- An adapter state holding `boolResultClient`. -/
def boolResultState : UtcpToolAdapter :=
  { utcp_client := some boolResultClient, tools_cache := [] }

/-- A client whose `call_tool` returns the string `"hi"`. -/
def strResultClient : UtcpClientStub :=
  { search_tools := fun _ _ => .ok [], call_tool := fun _ _ => .ok (.str "hi") }

/-- An adapter state holding `strResultClient`. -/
def strResultState : UtcpToolAdapter :=
  { utcp_client := some strResultClient, tools_cache := [] }

/-- A client whose search result reveals the limit it was invoked with:
limit 0 yields no tools, any other limit yields one probe tool. -/
def probeLimitClient : UtcpClientStub :=
  { search_tools := fun _ lim => if lim == 0 then .ok [] else .ok [{ name := "probe" }],
    call_tool := fun _ _ => .ok .none }

/-- An adapter state holding `probeLimitClient`. -/
def probeLimitState : UtcpToolAdapter :=
  { utcp_client := some probeLimitClient, tools_cache := [] }

/-- C1: for every tool name whose sanitized form exceeds 64 characters,
`format_tool_name_for_bedrock` returns exactly 64 characters: the first 55
sanitized characters, an underscore, and an 8-character alphanumeric suffix.
The hypotheses on `uuid4_str` say that it is the string form of a UUID:
lowercase hex digits and hyphens, with at least 8 hex digits (a real
`str(uuid.uuid4())` has 32). -/
theorem format_tool_name_truncates_to_64 (uuid4_str tool_name : List Char)
    (hhex : ∀ c ∈ uuid4_str, c = '-' ∨ c.isDigit = true ∨ ('a' ≤ c ∧ c ≤ 'f'))
    (hlen : 8 ≤ (uuid4_str.filter fun c => c != '-').length)
    (hlong : 64 < (sanitizeName tool_name).length) :
    (format_tool_name_for_bedrock uuid4_str tool_name).length = 64 ∧
    ∃ suffix : List Char,
      format_tool_name_for_bedrock uuid4_str tool_name =
        (sanitizeName tool_name).take 55 ++ ['_'] ++ suffix ∧
      suffix.length = 8 ∧ ∀ c ∈ suffix, c.isAlphanum = true := by
  have hform : format_tool_name_for_bedrock uuid4_str tool_name =
      (sanitizeName tool_name).take 55 ++ ['_'] ++
        (uuid4_str.filter fun c => c != '-').take 8 := by
    simp only [format_tool_name_for_bedrock]
    rw [if_pos hlong]
  constructor
  · rw [hform]
    simp only [List.length_append, List.length_take, List.length_cons, List.length_nil]
    omega
  · refine ⟨(uuid4_str.filter fun c => c != '-').take 8, hform, ?_, ?_⟩
    · simp only [List.length_take]
      omega
    · intro c hc
      have hmemf : c ∈ uuid4_str.filter fun c => c != '-' := List.mem_of_mem_take hc
      have hmem := List.mem_filter.mp hmemf
      rcases hhex c hmem.1 with h | h | h
      · exfalso
        have := hmem.2
        simp [h] at this
      · simp [Char.isAlphanum, h]
      · have hz : c ≤ 'z' := le_trans h.2 (by decide)
        simp only [Char.isAlphanum, Char.isAlpha, Char.isLower, Bool.or_eq_true,
          decide_eq_true_eq]
        refine Or.inl (Or.inr ?_)
        rw [Bool.and_eq_true, decide_eq_true_eq, decide_eq_true_eq]
        exact ⟨h.1, hz⟩

/-- Witness for C1: a 70-character name together with a concrete UUID string
hits the truncation branch and produces 64 characters. -/
theorem format_tool_name_truncates_to_64_witness :
    (format_tool_name_for_bedrock "00000000-0000-4000-8000-000000000000".toList
      (List.replicate 70 'a')).length = 64 :=
  (format_tool_name_truncates_to_64 "00000000-0000-4000-8000-000000000000".toList
    (List.replicate 70 'a') (by decide) (by decide) (by decide)).1

/-- Counterexample for C2 as stated: the name `a.b!` contains a dot, but the
sanitized result `a_b_` also rewrites the exclamation mark, so the output is
not the input with only dots replaced (`a_b!`). -/
theorem format_tool_name_dot_only_counterexample :
    '.' ∈ ['a', '.', 'b', '!'] ∧
    format_tool_name_for_bedrock [] ['a', '.', 'b', '!'] = ['a', '_', 'b', '_'] ∧
    dotReplacement ['a', '.', 'b', '!'] = ['a', '_', 'b', '!'] ∧
    (['a', '_', 'b', '_'] : List Char) ≠ ['a', '_', 'b', '!'] := by
  decide

/-- Auxiliary fact for the amended C2: on characters that are already valid
for Bedrock (alphanumeric, underscore, hyphen) or a dot, the second
sanitization pass is the identity after dot replacement. -/
theorem sanitizeName_eq_dotReplacement (tool_name : List Char)
    (hvalid : ∀ c ∈ tool_name, c.isAlphanum = true ∨ c = '_' ∨ c = '-' ∨ c = '.') :
    sanitizeName tool_name = dotReplacement tool_name := by
  induction tool_name with
  | nil => rfl
  | cons c l ih =>
    have hc := hvalid c (List.mem_cons_self c l)
    have hl : ∀ x ∈ l, x.isAlphanum = true ∨ x = '_' ∨ x = '-' ∨ x = '.' :=
      fun x hx => hvalid x (List.mem_cons_of_mem c hx)
    have ihl := ih hl
    simp only [sanitizeName, dotReplacement, List.map_cons] at ihl ⊢
    rw [ihl]
    congr 1
    by_cases hdot : c = '.'
    · simp [hdot, keepValidChar]
    · rw [if_neg hdot]
      rcases hc with h | h | h | h
      · simp [keepValidChar, h]
      · simp [h, keepValidChar]
      · simp [h, keepValidChar]
      · exact absurd h hdot

/-- C2 amended: for every tool name that contains a dot, whose characters are
all alphanumeric, underscore, hyphen or dot, and whose length is at most 64,
the sanitized name is exactly the input with every dot replaced by an
underscore and no other change.  (The unamended claim fails when the name
contains other invalid characters, which are also rewritten, or when the
sanitized name exceeds 64 characters and is truncated.) -/
theorem format_tool_name_dot_replacement (uuid4_str tool_name : List Char)
    (_hdot : '.' ∈ tool_name)
    (hvalid : ∀ c ∈ tool_name, c.isAlphanum = true ∨ c = '_' ∨ c = '-' ∨ c = '.')
    (hshort : tool_name.length ≤ 64) :
    format_tool_name_for_bedrock uuid4_str tool_name = dotReplacement tool_name := by
  have hsan := sanitizeName_eq_dotReplacement tool_name hvalid
  have hlen : (sanitizeName tool_name).length = tool_name.length := by
    rw [hsan]
    simp [dotReplacement]
  simp only [format_tool_name_for_bedrock]
  rw [if_neg (by omega), hsan]

/-- Witness for the amended C2, on the example from the specification:
`api.v1.get_data` sanitizes to `api_v1_get_data`. -/
theorem format_tool_name_dot_replacement_witness :
    format_tool_name_for_bedrock [] "api.v1.get_data".toList = "api_v1_get_data".toList :=
  (format_tool_name_dot_replacement [] "api.v1.get_data".toList
    (by decide) (by decide) (by decide)).trans (by decide)

/-- Entry used for the C8 witness: a `cli` entry with no optional
integrations available. -/
def cliOnlyEntry : TemplateConfig := [("call_template_type", PyValue.str "cli")]

/-- C4: per-property schema conversion.  When the `type` attribute is present
its value `None` and the literal `"file"` both map to `"string"` and every
other value is copied through unchanged, while `description`, `enum` and
`format` appear in the output exactly when they are present and truthy on
the source property; an object with no `type` attribute at all maps to the
bare dictionary with only `"type": "string"`. -/
theorem convert_schema_to_dict_cases (schema_obj : JsonSchemaObj) :
    ((schema_obj.type_attr = some none ∨ schema_obj.type_attr = some (some "file")) →
      (UtcpAgentTool._convert_schema_to_dict schema_obj).type = "string") ∧
    (∀ t, schema_obj.type_attr = some (some t) → t ≠ "file" →
      (UtcpAgentTool._convert_schema_to_dict schema_obj).type = t) ∧
    (schema_obj.type_attr = none →
      UtcpAgentTool._convert_schema_to_dict schema_obj =
        { type := "string", description := none, enum := none, format := none }) ∧
    (∀ t0, schema_obj.type_attr = some t0 →
      (∀ d, ((UtcpAgentTool._convert_schema_to_dict schema_obj).description = some d ↔
        schema_obj.description = some d ∧ d ≠ "")) ∧
      (∀ l, ((UtcpAgentTool._convert_schema_to_dict schema_obj).enum = some l ↔
        schema_obj.enum = some l ∧ l ≠ [])) ∧
      (∀ f, ((UtcpAgentTool._convert_schema_to_dict schema_obj).format = some f ↔
        schema_obj.format = some f ∧ f ≠ ""))) := by
  obtain ⟨ta, de, en, fo⟩ := schema_obj
  refine ⟨?_, ?_, ?_, ?_⟩
  · rintro (h | h)
    · rcases ta with _ | t
      · simp at h
      · simp at h
        subst h
        rfl
    · rcases ta with _ | t
      · simp at h
      · simp at h
        subst h
        rfl
  · intro t' h hf
    rcases ta with _ | t
    · simp at h
    · simp at h
      subst h
      simp only [UtcpAgentTool._convert_schema_to_dict]
  · intro h
    rcases ta with _ | t
    · rfl
    · simp at h
  · intro t0 h
    rcases ta with _ | t
    · simp at h
    · refine ⟨fun d => ?_, fun l => ?_, fun f => ?_⟩
      · simp only [UtcpAgentTool._convert_schema_to_dict]
        rcases de with _ | s
        · simp
        · by_cases hs : s = "" <;> simp [hs] <;> aesop
      · simp only [UtcpAgentTool._convert_schema_to_dict]
        rcases en with _ | l'
        · simp
        · by_cases hl : l' = [] <;> simp [hl] <;> aesop
      · simp only [UtcpAgentTool._convert_schema_to_dict]
        rcases fo with _ | s'
        · simp
        · by_cases hs : s' = "" <;> simp [hs] <;> aesop

/-- Witness for C4: a property with type `"file"` and a description converts
to type `"string"`. -/
theorem convert_schema_to_dict_cases_witness :
    (UtcpAgentTool._convert_schema_to_dict
      { type_attr := some (some "file"), description := some "d",
        enum := none, format := none }).type = "string" :=
  (convert_schema_to_dict_cases
    { type_attr := some (some "file"), description := some "d",
      enum := none, format := none }).1 (Or.inr rfl)

/-- C5: `call_tool` raises the "not initialized" adapter error when no client
is set (there is then no client to contact), wraps a raising client call in
an adapter error chaining the original message as cause, and returns a
successful client result unmodified. -/
theorem call_tool_contract (s : UtcpToolAdapter) (tool_name : String)
    (arguments : List (String × PyValue)) :
    (s.utcp_client = none →
      UtcpToolAdapter.call_tool s tool_name arguments =
        .error { msg := "UTCP client not initialized", cause := none } ∧
      List.IsInfix "not initialized".toList "UTCP client not initialized".toList) ∧
    (∀ c, s.utcp_client = some c →
      (∀ e, c.call_tool tool_name arguments = .error e →
        UtcpToolAdapter.call_tool s tool_name arguments =
          .error { msg := "Tool execution failed: " ++ e, cause := some e }) ∧
      (∀ r, c.call_tool tool_name arguments = .ok r →
        UtcpToolAdapter.call_tool s tool_name arguments = .ok r)) := by
  refine ⟨fun h => ⟨?_, by decide⟩, fun c hc => ⟨fun e he => ?_, fun r hr => ?_⟩⟩
  · simp [UtcpToolAdapter.call_tool, h]
  · simp [UtcpToolAdapter.call_tool, hc, he]
  · simp [UtcpToolAdapter.call_tool, hc, hr]

/-- Witness for C5: an adapter fresh from construction raises the
"not initialized" error. -/
theorem call_tool_contract_witness :
    UtcpToolAdapter.call_tool UtcpToolAdapter.construct "t" [] =
      .error { msg := "UTCP client not initialized", cause := none } :=
  ((call_tool_contract UtcpToolAdapter.construct "t" []).1 rfl).1

/-- Facts about the wrapping message used by a failing `start`: it contains
the phrase "initialization failed" and the original exception's message. -/
theorem init_failed_msg_parts (orig : String) :
    List.IsInfix "initialization failed".toList
      ("UTCP tool adapter initialization failed: " ++ orig).toList ∧
    List.IsInfix orig.toList
      ("UTCP tool adapter initialization failed: " ++ orig).toList := by
  have happ : ("UTCP tool adapter initialization failed: " ++ orig).toList =
      "UTCP tool adapter initialization failed: ".toList ++ orig.toList := rfl
  constructor
  · refine ⟨"UTCP tool adapter ".toList, ": ".toList ++ orig.toList, ?_⟩
    rw [happ, ← List.append_assoc]
    congr 1
  · refine ⟨"UTCP tool adapter initialization failed: ".toList, [], ?_⟩
    rw [happ]
    simp

/-- Case analysis of `start` (lines 272-373): either template construction
raises, or client creation raises, or both succeed, the client handle is
installed, and the tools are loaded. -/
theorem start_cases (avail : Availability)
    (create : List CallTemplate → Except String UtcpClientStub)
    (config : List TemplateConfig) (s : UtcpToolAdapter) :
    (∃ e, buildCallTemplates avail config = .error e ∧
      UtcpToolAdapter.start avail create config s =
        (s, .error { msg := "UTCP tool adapter initialization failed: " ++ e,
                     cause := some e })) ∨
    (∃ cts e, buildCallTemplates avail config = .ok cts ∧ create cts = .error e ∧
      UtcpToolAdapter.start avail create config s =
        (s, .error { msg := "UTCP tool adapter initialization failed: " ++ e,
                     cause := some e })) ∨
    (∃ cts client, buildCallTemplates avail config = .ok cts ∧ create cts = .ok client ∧
      UtcpToolAdapter.start avail create config s =
        (UtcpToolAdapter._load_tools { s with utcp_client := some client }, .ok ())) := by
  rcases hb : buildCallTemplates avail config with em | cts
  · exact Or.inl ⟨em, rfl, by simp [UtcpToolAdapter.start, hb]⟩
  · rcases hc : create cts with ec | client
    · exact Or.inr (Or.inl ⟨cts, ec, rfl, hc, by simp [UtcpToolAdapter.start, hb, hc]⟩)
    · exact Or.inr (Or.inr ⟨cts, client, rfl, hc, by simp [UtcpToolAdapter.start, hb, hc]⟩)

/-- C6: every raising invocation of `start` on an uninitialized adapter
raises the adapter error wrapping the original exception — the message is
the "initialization failed" phrase followed by the original message, the
cause is chained — and leaves the adapter state untouched: no client
handle, empty tool cache. -/
theorem start_failure_leaves_uninitialized (avail : Availability)
    (create : List CallTemplate → Except String UtcpClientStub)
    (config : List TemplateConfig) (s : UtcpToolAdapter) (e : AdapterError)
    (hclient : s.utcp_client = none) (hcache : s.tools_cache = [])
    (hfail : (UtcpToolAdapter.start avail create config s).2 = .error e) :
    (UtcpToolAdapter.start avail create config s).1 = s ∧
    (UtcpToolAdapter.start avail create config s).1.utcp_client = none ∧
    (UtcpToolAdapter.start avail create config s).1.tools_cache = [] ∧
    ∃ orig, e.cause = some orig ∧
      e.msg = "UTCP tool adapter initialization failed: " ++ orig ∧
      List.IsInfix "initialization failed".toList e.msg.toList ∧
      List.IsInfix orig.toList e.msg.toList := by
  rcases start_cases avail create config s with
    ⟨em, _, heq⟩ | ⟨cts, em, _, _, heq⟩ | ⟨cts, client, _, _, heq⟩
  · rw [heq] at hfail
    injection hfail with hfe
    subst hfe
    exact ⟨by rw [heq], by rw [heq]; exact hclient, by rw [heq]; exact hcache,
      em, rfl, rfl, (init_failed_msg_parts em).1, (init_failed_msg_parts em).2⟩
  · rw [heq] at hfail
    injection hfail with hfe
    subst hfe
    exact ⟨by rw [heq], by rw [heq]; exact hclient, by rw [heq]; exact hcache,
      em, rfl, rfl, (init_failed_msg_parts em).1, (init_failed_msg_parts em).2⟩
  · rw [heq] at hfail
    simp at hfail

/-- Witness for C6: a client factory failing with "Connection failed" leaves
a freshly constructed adapter unchanged. -/
theorem start_failure_leaves_uninitialized_witness :
    (UtcpToolAdapter.start availNone connectionFailedCreate []
      UtcpToolAdapter.construct).1 = UtcpToolAdapter.construct :=
  (start_failure_leaves_uninitialized availNone connectionFailedCreate []
    UtcpToolAdapter.construct
    { msg := "UTCP tool adapter initialization failed: " ++ "Connection failed",
      cause := some "Connection failed" } rfl rfl rfl).1

/-- Removing an entry that `buildCallTemplate` skips does not change the
result of the template-construction loop. -/
theorem buildCallTemplates_skip (avail : Availability) (tc : TemplateConfig)
    (h : buildCallTemplate avail tc = .ok none) (pre post : List TemplateConfig) :
    buildCallTemplates avail (pre ++ tc :: post) = buildCallTemplates avail (pre ++ post) := by
  induction pre with
  | nil =>
    simp only [List.nil_append, buildCallTemplates, h]
    cases buildCallTemplates avail post <;> rfl
  | cons p ps ih =>
    simp only [List.cons_append, buildCallTemplates, List.append_eq, ih]

/-- C8: a template entry whose transport kind is unrecognized or whose
optional integration is unavailable is skipped without raising
(`buildCallTemplate` yields no template and no exception), and removing it
from any configuration leaves the entire `start` sequence unchanged: every
other entry is still processed identically and the skip never aborts the
start. -/
theorem unsupported_entry_skipped (avail : Availability) (tc : TemplateConfig)
    (hskip : unsupportedEntry avail tc) :
    buildCallTemplate avail tc = .ok none ∧
    ∀ (create : List CallTemplate → Except String UtcpClientStub)
      (pre post : List TemplateConfig) (s : UtcpToolAdapter),
      UtcpToolAdapter.start avail create (pre ++ tc :: post) s =
        UtcpToolAdapter.start avail create (pre ++ post) s := by
  have hb : buildCallTemplate avail tc = .ok none := by
    unfold unsupportedEntry at hskip
    unfold buildCallTemplate
    rcases hg : dictGet tc "call_template_type" with _ | v
    · rfl
    · rcases v with sv | d | b | _ | n
      · rw [hg] at hskip
        obtain ⟨h1, h2, h3, h4, h5, h6, h7, h8, h9⟩ := hskip
        simp [h1, h2, h3, h4, h5, h6, h7, h8, h9]
      · rfl
      · rfl
      · rfl
      · rfl
  refine ⟨hb, fun create pre post s => ?_⟩
  unfold UtcpToolAdapter.start
  rw [buildCallTemplates_skip avail tc hb pre post]

/-- Witness for C8: a `cli` entry is skipped when the CLI integration is
unavailable. -/
theorem unsupported_entry_skipped_witness :
    buildCallTemplate availNone cliOnlyEntry = .ok none :=
  (unsupported_entry_skipped availNone cliOnlyEntry
    ⟨by decide, by decide, by decide, by decide, by decide,
     by decide, by decide, by decide, by decide⟩).1

/-- Loading tools never changes the client handle. -/
theorem load_tools_preserves_client (s : UtcpToolAdapter) :
    (UtcpToolAdapter._load_tools s).utcp_client = s.utcp_client := by
  unfold UtcpToolAdapter._load_tools
  cases hc : s.utcp_client with
  | none => exact hc
  | some c =>
    dsimp only
    rcases c.search_tools "" 1000 with er | ts <;> rfl

/-- C9: the invariant "no client implies empty cache" holds after
construction and is preserved by `stop`, `_load_tools` and `start` (on both
its success and failure paths). -/
theorem cache_invariant_preserved :
    cacheInvariant UtcpToolAdapter.construct ∧
    (∀ s, cacheInvariant s → cacheInvariant (UtcpToolAdapter.stop s)) ∧
    (∀ s, cacheInvariant s → cacheInvariant (UtcpToolAdapter._load_tools s)) ∧
    (∀ avail create config s, cacheInvariant s →
      cacheInvariant (UtcpToolAdapter.start avail create config s).1) := by
  have hload : ∀ s, cacheInvariant s → cacheInvariant (UtcpToolAdapter._load_tools s) := by
    intro s hs hnone
    rw [load_tools_preserves_client] at hnone
    unfold UtcpToolAdapter._load_tools
    rw [hnone]
    exact hs hnone
  refine ⟨fun _ => rfl, fun s hs => ?_, hload, fun avail create config s hs => ?_⟩
  · unfold UtcpToolAdapter.stop
    cases hc : s.utcp_client with
    | some c => exact fun _ => rfl
    | none => exact hs
  · rcases start_cases avail create config s with
      ⟨em, _, heq⟩ | ⟨cts, em, _, _, heq⟩ | ⟨cts, client, _, _, heq⟩
    · rw [heq]
      exact hs
    · rw [heq]
      exact hs
    · rw [heq]
      exact hload _ (fun h => absurd h (by simp))

/-- Witness for C9: the invariant holds after stopping a freshly constructed
adapter. -/
theorem cache_invariant_preserved_witness :
    cacheInvariant (UtcpToolAdapter.stop UtcpToolAdapter.construct) :=
  cache_invariant_preserved.2.1 UtcpToolAdapter.construct (fun _ => rfl)

/-- Counterexample for C3 as stated: a tool call returning the Python value
`True` — neither a string nor a dict — yields a success envelope whose
content is `str(True) = "True"`, not the JSON serialization `"true"`. -/
theorem stream_content_counterexample :
    UtcpAgentTool.stream boolResultState { name := "t" }
      { toolUseId := none, input := none } =
      [{ toolUseId := "unknown", content := ["True"], status := "success" }] ∧
    json_dumps 0 (.bool true) = "true" ∧
    ("True" : String) ≠ "true" := ⟨rfl, by simp [json_dumps], by decide⟩

/-- C3 amended: every invocation of `stream` yields exactly one result
envelope and raises nothing past the tool boundary.  On success the
envelope has status success, with content equal to the result when it is a
string and to `json.dumps(result, indent=2)` when it is a dict, and to
`str(result)` for any other value; on failure the envelope has status
error with content `"Error: "` followed by the exception's message. -/
theorem stream_yields_one_envelope (s : UtcpToolAdapter) (tool : UTCPTool)
    (tool_use : ToolUse) :
    (UtcpAgentTool.stream s tool tool_use).length = 1 ∧
    (∀ r, UtcpToolAdapter.call_tool s tool.name (tool_use.input.getD []) = .ok r →
      UtcpAgentTool.stream s tool tool_use =
        [{ toolUseId := tool_use.toolUseId.getD "unknown",
           content := [format_result_content r], status := "success" }]) ∧
    (∀ e, UtcpToolAdapter.call_tool s tool.name (tool_use.input.getD []) = .error e →
      UtcpAgentTool.stream s tool tool_use =
        [{ toolUseId := tool_use.toolUseId.getD "unknown",
           content := ["Error: " ++ e.msg], status := "error" }]) ∧
    (∀ sv, format_result_content (.str sv) = sv) ∧
    (∀ d, format_result_content (.dict d) = json_dumps 0 (.dict d)) := by
  refine ⟨?_, fun r hr => ?_, fun e he => ?_, fun sv => rfl, fun d => rfl⟩
  · unfold UtcpAgentTool.stream
    cases UtcpToolAdapter.call_tool s tool.name (tool_use.input.getD []) <;> rfl
  · simp [UtcpAgentTool.stream, hr]
  · simp [UtcpAgentTool.stream, he]

/-- Witness for the amended C3: a client returning the string `"hi"` yields
one success envelope with that content. -/
theorem stream_yields_one_envelope_witness :
    UtcpAgentTool.stream strResultState { name := "t" }
      { toolUseId := some "id", input := none } =
      [{ toolUseId := "id", content := ["hi"], status := "success" }] :=
  (stream_yields_one_envelope strResultState { name := "t" }
    { toolUseId := some "id", input := none }).2.1 (.str "hi") rfl

/-- Counterexample for C7 as stated: with `max_results = 0` the client is
invoked with limit 100, not 0 — a probe client that returns no tools at
limit 0 still yields one wrapped tool through the adapter. -/
theorem search_tools_limit_counterexample :
    probeLimitClient.search_tools "q" 0 = .ok [] ∧
    UtcpToolAdapter.search_tools probeLimitState "q" (some 0) =
      .ok [{ utcp_tool := { name := "probe" } }] ∧
    (.ok [({ utcp_tool := { name := "probe" } } : UtcpAgentTool)] :
      Except AdapterError (List UtcpAgentTool)) ≠ .ok [] :=
  ⟨rfl, rfl, by simp⟩

/-- C7 amended: with an active client, `search_tools` invokes the client's
search once with the given query and a limit equal to `max_results` when it
is set and nonzero, and 100 when it is unset or 0; every returned
descriptor is wrapped, and a raising search yields the empty list instead
of propagating. -/
theorem search_tools_contract (s : UtcpToolAdapter) (c : UtcpClientStub)
    (query : String) (max_results : Option Int) (hc : s.utcp_client = some c) :
    (∀ ts, c.search_tools query (py_or_100 max_results) = .ok ts →
      UtcpToolAdapter.search_tools s query max_results = .ok (ts.map UtcpAgentTool.mk)) ∧
    (∀ e, c.search_tools query (py_or_100 max_results) = .error e →
      UtcpToolAdapter.search_tools s query max_results = .ok []) := by
  constructor
  · intro ts hts
    simp [UtcpToolAdapter.search_tools, hc, hts]
  · intro e he
    simp [UtcpToolAdapter.search_tools, hc, he]

/-- Witness for the amended C7: limit 5 is passed through and an empty
search result is wrapped into an empty list. -/
theorem search_tools_contract_witness :
    UtcpToolAdapter.search_tools strResultState "q" (some 5) = .ok [] :=
  (search_tools_contract strResultState strResultClient "q" (some 5) rfl).1 [] rfl

/-- C10: a `max_results` of 0 is falsy in Python and treated exactly like an
unset `max_results`: the client's search runs with limit 100 and the
adapter's answer is the same as with no cap given. -/
theorem search_tools_zero_is_unset (s : UtcpToolAdapter) (c : UtcpClientStub)
    (query : String) (hc : s.utcp_client = some c) :
    UtcpToolAdapter.search_tools s query (some 0) =
      UtcpToolAdapter.search_tools s query none ∧
    (∀ ts, c.search_tools query 100 = .ok ts →
      UtcpToolAdapter.search_tools s query (some 0) = .ok (ts.map UtcpAgentTool.mk)) ∧
    (∀ e, c.search_tools query 100 = .error e →
      UtcpToolAdapter.search_tools s query (some 0) = .ok []) := by
  refine ⟨?_, fun ts hts => ?_, fun e he => ?_⟩
  · simp [UtcpToolAdapter.search_tools, py_or_100, hc]
  · simp [UtcpToolAdapter.search_tools, py_or_100, hc, hts]
  · simp [UtcpToolAdapter.search_tools, py_or_100, hc, he]

/-- Witness for C10: the probe client observes limit 100 when the adapter is
asked for at most 0 results. -/
theorem search_tools_zero_is_unset_witness :
    UtcpToolAdapter.search_tools probeLimitState "q" (some 0) =
      .ok [{ utcp_tool := { name := "probe" } }] :=
  (search_tools_zero_is_unset probeLimitState probeLimitClient "q" rfl).2.1
    [{ name := "probe" }] rfl
